import Mathlib

/-
Shallow embedding of src/uring_sendmsg.c, a single-file reproducer for the
io_uring IORING_OP_RECVMSG / IORING_OP_SENDMSG double-fetch race.

The program is straight-line C: main() sets up an io_uring instance, maps a
page for the msghdr iovec and registers it with userfaultfd, spawns
uffd_thread, writes one submission-queue entry with opcode IORING_OP_RECVMSG,
advances the submission tail, and calls io_uring_enter with GETEVENTS.
uffd_thread blocks in read(uffd), and when the fault message arrives it
overwrites sqes[0].opcode with IORING_OP_SENDMSG and then releases the
blocked consumer with a UFFDIO_COPY of a 0x1000-byte page whose leading
bytes are the real iovec.

Every syscall result is a branch through the SYSCHK macro (result -1 means
err(1), i.e. process exit code 1); errx(1) is used for the pthread_create
failure, a short uffd read, and an unexpected completion-queue tail.  We
model the run as a function of an environment record carrying every
syscall result, returning both the terminal report and the ordered trace of
the race-relevant events.
-/

namespace UringSendmsg

/-- Opcode value of IORING_OP_SENDMSG in the Linux 5.3 uapi enum
(NOP=0, READV=1, WRITEV=2, FSYNC=3, READ_FIXED=4, WRITE_FIXED=5,
POLL_ADD=6, POLL_REMOVE=7, SYNC_FILE_RANGE=8, SENDMSG=9, RECVMSG=10). -/
def IORING_OP_SENDMSG : Nat := 9

/-- Opcode value of IORING_OP_RECVMSG in the Linux 5.3 uapi enum. -/
def IORING_OP_RECVMSG : Nat := 10

/-- Size in bytes of struct uffd_msg (fixed 32-byte layout); uffd_thread
checks that read(uffd, &msg, sizeof(msg)) returned exactly this many bytes. -/
def sizeof_uffd_msg : Int := 32

/-- The entries argument of io_uring_setup at line 89 of the source:
the requested capacity of the submission ring. -/
def ring_entries : Nat := 10

/-- The submission-queue entry (struct io_uring_sqe, Linux 5.3 layout):
opcode, flags, ioprio, fd, off, addr, len, opcode-specific flags word and
user_data / buf_index.  The source writes the fields opcode, fd and addr
explicitly (lines 147-151); the compound literal zero-fills the rest. -/
structure io_uring_sqe where
  opcode : Nat
  flags : Nat
  ioprio : Nat
  fd : Int
  off : Nat
  addr : Nat
  len : Nat
  msg_flags : Nat
  user_data : Nat
  buf_index : Nat
  deriving Repr, DecidableEq

/-- The descriptor the program submits (lines 147-151):
sqes[0] = { .opcode = IORING_OP_RECVMSG, .fd = sock, .addr = &msg };
all unnamed fields of the compound literal are zero. -/
def initial_sqe (sock : Int) (msg_addr : Nat) : io_uring_sqe :=
  { opcode := IORING_OP_RECVMSG
    flags := 0
    ioprio := 0
    fd := sock
    off := 0
    addr := msg_addr
    len := 0
    msg_flags := 0
    user_data := 0
    buf_index := 0 }

/-- The in-place kind mutation performed by uffd_thread at line 69:
sqes[0].opcode = IORING_OP_SENDMSG; — a single field store, nothing else. -/
def mutate_submitted (s : io_uring_sqe) : io_uring_sqe :=
  { s with opcode := IORING_OP_SENDMSG }

/-- Channel state as seen by the mutation step: the single submitted
descriptor slot plus the list of submission ids for which a completion
record has been observed.  The source tracks completions only through the
completion-queue tail read in main; line 69 consults neither. -/
structure ChannelState where
  sqe0 : io_uring_sqe
  completions : List Nat
  deriving Repr, DecidableEq

/-- Whether a completion record for submission id `id` has been recorded. -/
def completionRecorded (id : Nat) (st : ChannelState) : Bool :=
  st.completions.contains id

/-- The mutation step at channel level: line 69 stores IORING_OP_SENDMSG
into sqes[0].opcode unconditionally.  There is no branch, no inspection of
the completion state and no error result in the source. -/
def mutate_submitted_op (st : ChannelState) : ChannelState :=
  { st with sqe0 := mutate_submitted st.sqe0 }

/-- Little-endian byte list of width `n` for the value `v`. -/
def leBytes (n v : Nat) : List Nat :=
  (List.range n).map (fun i => v / 256 ^ i % 256)

/-- Byte size of the packed netlink message struct msgbuf (lines 113-136):
struct nlmsghdr (16) + struct ifaddrmsg (8) + struct rtattr (4) + 4
address bytes. -/
def sizeof_msgbuf : Nat := 32

/-- A struct iovec: base pointer and length, 8 bytes each on x86-64. -/
structure iovec where
  iov_base : Nat
  iov_len : Nat
  deriving Repr, DecidableEq

/-- real_iov as set at lines 137-138: iov_base = &msgbuf,
iov_len = sizeof(msgbuf). -/
def real_iov (msgbuf_addr : Nat) : iovec :=
  { iov_base := msgbuf_addr, iov_len := sizeof_msgbuf }

/-- The 16 raw bytes of a struct iovec on x86-64 (little-endian fields). -/
def iovecBytes (v : iovec) : List Nat :=
  leBytes 8 v.iov_base ++ leBytes 8 v.iov_len

/-- The page supplied to UFFDIO_COPY (lines 71-76): a union of a struct
iovec and char pad[0x1000], initialized with .iov = real_iov, so the page
holds the bytes of real_iov followed by zero padding up to 0x1000 bytes. -/
def vecBytes (msgbuf_addr : Nat) : List Nat :=
  iovecBytes (real_iov msgbuf_addr) ++ List.replicate (0x1000 - 16) 0

/-- The len field of the struct uffdio_copy at line 80. -/
def uffdio_copy_len : Nat := 0x1000

/-- The length of the userfaultfd-registered iov page: the mmap at line 95
and the uffdio_register range at line 101 both use 0x1000. -/
def iov_region_len : Nat := 0x1000

/-- Which side of the ring performs a cursor write: the user program
(producer) or the kernel consumer. -/
inductive Writer where
  | producer
  | consumer
  deriving Repr, DecidableEq

/-- The two ring cursors the program touches: the submission-queue tail
(written by main at line 153) and the completion-queue tail (written by the
kernel, read by main at line 156). -/
inductive Cursor where
  | sqTail
  | cqTail
  deriving Repr, DecidableEq

/-- Race-relevant events of one run, in program order:
slotWrite is the store to the sq index array at line 152 (recording the
cursor value at the time of the store and the array index used);
cursorWrite is an advance of a ring cursor (old and new value);
faultObserved is read(uffd) returning a full message (line 65);
mutateKind is the opcode overwrite (line 69);
populateRegion is the UFFDIO_COPY ioctl (line 82);
cqeRead is main reading the completion record (lines 159-164). -/
inductive Event where
  | slotWrite (cursorVal : Nat) (idx : Nat)
  | cursorWrite (c : Cursor) (w : Writer) (oldVal : Nat) (newVal : Nat)
  | faultObserved
  | mutateKind
  | populateRegion
  | cqeRead (idx : Nat) (user_data : Nat) (res : Int)
  deriving Repr, DecidableEq

/-- Which program step failed, for runs that exit through err(1)/errx(1). -/
inductive Step where
  | io_uring_setup
  | mmap_sq_ring
  | mmap_cq_ring
  | mmap_sqes
  | mmap_iov
  | userfaultfd
  | uffdio_api
  | uffdio_register_ioctl
  | pthread_create
  | socket_call
  | uffd_read
  | uffd_read_len
  | uffdio_copy_ioctl
  | io_uring_enter
  | cq_tail_check
  deriving Repr, DecidableEq

/-- Terminal report of one run: success and blocked both mean the program
ran to the final printf (exit code 0) and differ only in the sign of
cqe->res; infraFailure is an err(1)/errx(1) exit recording the failed
step; hangs means the program blocked forever (no fault message ever
arrived on the uffd, so the consumer stays blocked on the unpopulated
page and io_uring_enter with min_complete=1 never returns). -/
inductive Report where
  | success (res : Int)
  | blocked (res : Int)
  | infraFailure (st : Step)
  | hangs
  deriving Repr, DecidableEq

/-- Environment of one run: the result of every system call the program
makes, in source order, plus whether a page fault on the registered region
is ever signalled on the uffd.  -1 results are what SYSCHK treats as
failure. -/
structure Env where
  io_uring_setup_res : Int
  mmap_sq_res : Int
  mmap_cq_res : Int
  mmap_sqes_res : Int
  mmap_iov_res : Int
  userfaultfd_res : Int
  uffdio_api_res : Int
  uffdio_register_res : Int
  pthread_create_res : Int
  socket_res : Int
  msg_addr : Nat
  faultObserved : Bool
  read_res : Int
  uffdio_copy_res : Int
  io_uring_enter_res : Int
  cq_tail : Nat
  cqe_user_data : Nat
  cqe_res : Int
  deriving Repr, DecidableEq

/-- The descriptor main submits in environment `e` (lines 147-151). -/
def submitted_sqe (e : Env) : io_uring_sqe :=
  initial_sqe e.socket_res e.msg_addr

/-- Events of the submission step (lines 152-153): store index 0 into the
sq index array while the tail is 0, then advance the sq tail from 0 to 1. -/
def submitEvents : List Event :=
  [Event.slotWrite 0 0, Event.cursorWrite Cursor.sqTail Writer.producer 0 1]

/-- Cursor writes of the kernel consumer: the completion-queue tail counts
completion records, each produced record advancing it by one; in
environment `e` the consumer produces `e.cq_tail` records before main
reads the tail at line 156. -/
def consumerEvents (e : Env) : List Event :=
  (List.range e.cq_tail).map (fun i => Event.cursorWrite Cursor.cqTail Writer.consumer i (i + 1))

/-- One run of the program as a function of its environment, returning the
terminal report and the ordered event trace.  The branch structure mirrors
the source: each SYSCHK is a test against -1; pthread_create failure, a
short uffd read and cq_tail != 1 are the errx(1) exits.  The uffd_thread
events sit between submission and the consumer's completion because the
consumer faults on the unpopulated iov page and is blocked until
UFFDIO_COPY, while main is blocked inside io_uring_enter (GETEVENTS,
min_complete=1) until a completion exists. -/
def run (e : Env) : Report × List Event :=
  if e.io_uring_setup_res = -1 then (Report.infraFailure Step.io_uring_setup, [])
  else if e.mmap_sq_res = -1 then (Report.infraFailure Step.mmap_sq_ring, [])
  else if e.mmap_cq_res = -1 then (Report.infraFailure Step.mmap_cq_ring, [])
  else if e.mmap_sqes_res = -1 then (Report.infraFailure Step.mmap_sqes, [])
  else if e.mmap_iov_res = -1 then (Report.infraFailure Step.mmap_iov, [])
  else if e.userfaultfd_res = -1 then (Report.infraFailure Step.userfaultfd, [])
  else if e.uffdio_api_res = -1 then (Report.infraFailure Step.uffdio_api, [])
  else if e.uffdio_register_res = -1 then (Report.infraFailure Step.uffdio_register_ioctl, [])
  else if e.pthread_create_res ≠ 0 then (Report.infraFailure Step.pthread_create, [])
  else if e.socket_res = -1 then (Report.infraFailure Step.socket_call, [])
  else if ¬ e.faultObserved then (Report.hangs, submitEvents)
  else if e.read_res = -1 then (Report.infraFailure Step.uffd_read, submitEvents)
  else if e.read_res ≠ sizeof_uffd_msg then
    (Report.infraFailure Step.uffd_read_len, submitEvents ++ [Event.faultObserved])
  else if e.uffdio_copy_res = -1 then
    (Report.infraFailure Step.uffdio_copy_ioctl,
      submitEvents ++ [Event.faultObserved, Event.mutateKind])
  else if e.io_uring_enter_res = -1 then
    (Report.infraFailure Step.io_uring_enter,
      submitEvents ++ [Event.faultObserved, Event.mutateKind, Event.populateRegion])
  else if e.cq_tail ≠ 1 then
    (Report.infraFailure Step.cq_tail_check,
      submitEvents ++ [Event.faultObserved, Event.mutateKind, Event.populateRegion]
        ++ consumerEvents e)
  else
    ((if e.cqe_res < 0 then Report.blocked e.cqe_res else Report.success e.cqe_res),
      submitEvents ++ [Event.faultObserved, Event.mutateKind, Event.populateRegion]
        ++ consumerEvents e ++ [Event.cqeRead 0 e.cqe_user_data e.cqe_res])

/-- The process exit code of a run: 0 when main falls off its end (C99
semantics for main without a return), 1 for every err(1)/errx(1) exit,
none when the run never terminates. -/
def exitCode (e : Env) : Option Nat :=
  match (run e).1 with
  | Report.success _ => some 0
  | Report.blocked _ => some 0
  | Report.infraFailure _ => some 1
  | Report.hangs => none

/-- Whether a run ran to completion: it reached the final printf of the
completion result, whatever the race outcome was. -/
def ranToCompletion (e : Env) : Prop :=
  (∃ r, (run e).1 = Report.success r) ∨ (∃ r, (run e).1 = Report.blocked r)

/-- Whether every check of the run passed, as one decidable condition. -/
def completes (e : Env) : Bool :=
  (e.io_uring_setup_res != -1) && (e.mmap_sq_res != -1) && (e.mmap_cq_res != -1) &&
  (e.mmap_sqes_res != -1) && (e.mmap_iov_res != -1) && (e.userfaultfd_res != -1) &&
  (e.uffdio_api_res != -1) && (e.uffdio_register_res != -1) &&
  (e.pthread_create_res == 0) && (e.socket_res != -1) && e.faultObserved &&
  (e.read_res == sizeof_uffd_msg) && (e.uffdio_copy_res != -1) &&
  (e.io_uring_enter_res != -1) && (e.cq_tail == 1)

/-- The full trace of a run in which every check passed. -/
def fullTrace (e : Env) : List Event :=
  [Event.slotWrite 0 0,
   Event.cursorWrite Cursor.sqTail Writer.producer 0 1,
   Event.faultObserved,
   Event.mutateKind,
   Event.populateRegion,
   Event.cursorWrite Cursor.cqTail Writer.consumer 0 1,
   Event.cqeRead 0 e.cqe_user_data e.cqe_res]

/-- An environment in which every call succeeds and cqe->res is positive. -/
def env0 : Env :=
  { io_uring_setup_res := 3
    mmap_sq_res := 4096
    mmap_cq_res := 8192
    mmap_sqes_res := 12288
    mmap_iov_res := 16384
    userfaultfd_res := 4
    uffdio_api_res := 0
    uffdio_register_res := 0
    pthread_create_res := 0
    socket_res := 5
    msg_addr := 20480
    faultObserved := true
    read_res := 32
    uffdio_copy_res := 0
    io_uring_enter_res := 1
    cq_tail := 1
    cqe_user_data := 0
    cqe_res := 32 }

/-- Index of the first occurrence of an event in a trace (length if absent):
the monotonic sequence counter of the spec's ordering property. -/
def seqIdx (ev : Event) : List Event → Nat
  | [] => 0
  | x :: xs => if x = ev then 0 else seqIdx ev xs + 1

/-- Number of occurrences of an event in a trace. -/
def occCount (ev : Event) : List Event → Nat
  | [] => 0
  | x :: xs => (if x = ev then 1 else 0) + occCount ev xs

/-- Whether an event is main's read of a completion record. -/
def isCqeRead : Event → Bool
  | Event.cqeRead _ _ _ => true
  | _ => false

/-- Whether an event is a consumer-side completion-queue tail advance,
i.e. the production of one completion record. -/
def isConsumerWrite : Event → Bool
  | Event.cursorWrite Cursor.cqTail Writer.consumer _ _ => true
  | _ => false

/-- Cursor discipline of a single event: a submission-tail write is by the
producer and advances by one, a completion-tail write is by the consumer
and advances by one (in particular neither is ever decremented), and a
slot store uses the cursor value reduced modulo the ring capacity. -/
def cursorOk : Event → Bool
  | Event.cursorWrite Cursor.sqTail w old new => w == Writer.producer && new == old + 1
  | Event.cursorWrite Cursor.cqTail w old new => w == Writer.consumer && new == old + 1
  | Event.slotWrite cv idx => idx == cv % ring_entries
  | _ => true

/-- A blocking call of the program together with the timeout bound its
argument list carries. -/
structure BlockingCall where
  callName : String
  timeout : Option Nat
  deriving Repr, DecidableEq

/-- The blocking wait of uffd_thread at line 65: read(uffd, &msg,
sizeof(msg)).  Its arguments are a file descriptor, a buffer and a byte
count; no timeout parameter exists. -/
def uffd_read_wait : BlockingCall :=
  { callName := "read_uffd", timeout := none }

/-- The blocking wait of main at line 154: io_uring_enter(uring_fd, 1, 1,
IORING_ENTER_GETEVENTS, NULL, 0).  Its arguments are the ring fd, the
submit count, the minimum completion count, flags and a signal mask; no
timeout parameter exists. -/
def getevents_wait : BlockingCall :=
  { callName := "io_uring_enter_getevents", timeout := none }

/-- All blocking waits of the attempt. -/
def blockingWaits : List BlockingCall :=
  [uffd_read_wait, getevents_wait]

/-- Whether every setup step before the race window succeeded (the first
ten checks of the run, through the socket call). -/
def setupOk (e : Env) : Bool :=
  (e.io_uring_setup_res != -1) && (e.mmap_sq_res != -1) && (e.mmap_cq_res != -1) &&
  (e.mmap_sqes_res != -1) && (e.mmap_iov_res != -1) && (e.userfaultfd_res != -1) &&
  (e.uffdio_api_res != -1) && (e.uffdio_register_res != -1) &&
  (e.pthread_create_res == 0) && (e.socket_res != -1)

/-- A channel state in which a completion for submission id 0 is already
recorded while slot 0 still holds the submitted IORING_OP_RECVMSG entry. -/
def st0 : ChannelState :=
  { sqe0 := initial_sqe 5 100, completions := [0] }

/-- Submission-queue ring state as touched by lines 152-153: the value of
index-array slot 0, an instrumentation counter of stores to that slot, and
the submission tail. -/
structure SqRingState where
  slot0 : Nat
  slot0_writes : Nat
  sq_tail : Nat
  deriving Repr, DecidableEq

/-- One submit call as the source performs it (lines 152-153):
((int*)(sq_ring + params.sq_off.array))[0] = 0; then the tail increment.
Both stores are unconditional; the source has no capacity test and no
error result. -/
def submit (ch : SqRingState) : SqRingState :=
  { slot0 := 0, slot0_writes := ch.slot0_writes + 1, sq_tail := ch.sq_tail + 1 }

/-- The ring before any submission. -/
def initialSqRing : SqRingState :=
  { slot0 := 0, slot0_writes := 0, sq_tail := 0 }

/-- The ring after n submit calls with no consumption. -/
def submits : Nat → SqRingState
  | 0 => initialSqRing
  | n + 1 => submit (submits n)

/-- Result type for the spec's submit contract. -/
inductive SubmitOutcome where
  | ok (st : SqRingState)
  | channelFull
  deriving Repr, DecidableEq

/-- Modelled from the spec, for comparison with the source's submit:
submit writes the descriptor into the next slot and advances the tail, but
fails with ChannelFull if capacity is exhausted (with no consumption the
head stays 0, so the channel is full once the tail reaches capacity). -/
def spec_submit (capacity : Nat) (ch : SqRingState) : SubmitOutcome :=
  if capacity ≤ ch.sq_tail then SubmitOutcome.channelFull
  else SubmitOutcome.ok (submit ch)

/-- An environment in which the whole setup succeeds but no page fault is
ever signalled on the uffd. -/
def envNoFault : Env :=
  { env0 with faultObserved := false }

/-- An environment in which the whole setup succeeds and cqe->res is
negative, i.e. the backend rejected the request. -/
def envBlocked : Env :=
  { env0 with cqe_res := -1 }

/-- Unfolding lemma: a run in which every check passed reports success or
blocked according to the sign of cqe->res and produces the full trace. -/
theorem run_of_completes (e : Env) (h : completes e = true) :
    run e = ((if e.cqe_res < 0 then Report.blocked e.cqe_res else Report.success e.cqe_res),
      fullTrace e) := by
  simp only [completes, Bool.and_eq_true, bne_iff_ne, beq_iff_eq, ne_eq] at h
  obtain ⟨⟨⟨⟨⟨⟨⟨⟨⟨⟨⟨⟨⟨⟨h1, h2⟩, h3⟩, h4⟩, h5⟩, h6⟩, h7⟩, h8⟩, h9⟩, h10⟩, h11⟩, h12⟩,
    h13⟩, h14⟩, h15⟩ := h
  simp [run, fullTrace, submitEvents, consumerEvents, sizeof_uffd_msg, h1, h2, h3, h4,
    h5, h6, h7, h8, h9, h10, h11, h12, h13, h14, h15, List.range_succ]

/-- A run in which some check failed ends in err/errx or blocks forever. -/
theorem not_completes_report (e : Env) (hc : completes e = false) :
    (∃ st, (run e).1 = Report.infraFailure st) ∨ (run e).1 = Report.hangs := by
  by_cases h1 : e.io_uring_setup_res = -1
  · simp [run, h1]
  by_cases h2 : e.mmap_sq_res = -1
  · simp [run, h1, h2]
  by_cases h3 : e.mmap_cq_res = -1
  · simp [run, h1, h2, h3]
  by_cases h4 : e.mmap_sqes_res = -1
  · simp [run, h1, h2, h3, h4]
  by_cases h5 : e.mmap_iov_res = -1
  · simp [run, h1, h2, h3, h4, h5]
  by_cases h6 : e.userfaultfd_res = -1
  · simp [run, h1, h2, h3, h4, h5, h6]
  by_cases h7 : e.uffdio_api_res = -1
  · simp [run, h1, h2, h3, h4, h5, h6, h7]
  by_cases h8 : e.uffdio_register_res = -1
  · simp [run, h1, h2, h3, h4, h5, h6, h7, h8]
  by_cases h9 : e.pthread_create_res = 0
  case neg => simp [run, h1, h2, h3, h4, h5, h6, h7, h8, h9]
  by_cases h10 : e.socket_res = -1
  · simp [run, h1, h2, h3, h4, h5, h6, h7, h8, h9, h10]
  by_cases h11 : e.faultObserved = true
  case neg => simp [run, h1, h2, h3, h4, h5, h6, h7, h8, h9, h10, h11]
  by_cases h12 : e.read_res = -1
  · simp [run, h1, h2, h3, h4, h5, h6, h7, h8, h9, h10, h11, h12]
  by_cases h13 : e.read_res = sizeof_uffd_msg
  case neg => simp [run, h1, h2, h3, h4, h5, h6, h7, h8, h9, h10, h11, h12, h13]
  by_cases h14 : e.uffdio_copy_res = -1
  · simp [run, sizeof_uffd_msg, h1, h2, h3, h4, h5, h6, h7, h8, h9, h10, h11, h12, h13,
      h14]
  by_cases h15 : e.io_uring_enter_res = -1
  · simp [run, sizeof_uffd_msg, h1, h2, h3, h4, h5, h6, h7, h8, h9, h10, h11, h12, h13,
      h14, h15]
  by_cases h16 : e.cq_tail = 1
  case neg => simp [run, sizeof_uffd_msg, h1, h2, h3, h4, h5, h6, h7, h8, h9, h10, h11,
    h12, h13, h14, h15, h16]
  simp [completes, h1, h2, h3, h4, h5, h6, h7, h8, h9, h10, h11, h12, h13, h14, h15,
    h16] at hc

/-- A run that reached the final printf passed every check. -/
theorem completes_of_ranToCompletion (e : Env) (h : ranToCompletion e) :
    completes e = true := by
  cases hc : completes e
  · exfalso
    have hcase := not_completes_report e hc
    rcases h with ⟨r, hr⟩ | ⟨r, hr⟩ <;> rcases hcase with ⟨st, hst⟩ | hst <;>
      rw [hr] at hst <;> exact Report.noConfusion hst
  · rfl

/-- C9: the kind mutation at line 69 writes only the opcode field of the
already-submitted descriptor; every other field of the submission-queue
entry — notably fd (the endpoint handle) and addr (the auxiliary msghdr
reference) — holds the same value after the mutation as before it. -/
theorem c9_mutation_frame (s : io_uring_sqe) :
    (mutate_submitted s).opcode = IORING_OP_SENDMSG ∧
    (mutate_submitted s).flags = s.flags ∧
    (mutate_submitted s).ioprio = s.ioprio ∧
    (mutate_submitted s).fd = s.fd ∧
    (mutate_submitted s).off = s.off ∧
    (mutate_submitted s).addr = s.addr ∧
    (mutate_submitted s).len = s.len ∧
    (mutate_submitted s).msg_flags = s.msg_flags ∧
    (mutate_submitted s).user_data = s.user_data ∧
    (mutate_submitted s).buf_index = s.buf_index :=
  ⟨rfl, rfl, rfl, rfl, rfl, rfl, rfl, rfl, rfl, rfl⟩

/-- C10: the populate step supplies exactly one full region length (0x1000
bytes, the uffdio_copy len equals the region length) of data whose leading
16 bytes are the true iovec real_iov describing the netlink payload
(iov_len = sizeof(msgbuf)), zero-padded to the region length. -/
theorem c10_populate_payload (a : Nat) :
    (vecBytes a).length = iov_region_len ∧
    uffdio_copy_len = iov_region_len ∧
    (vecBytes a).take 16 = iovecBytes (real_iov a) ∧
    (real_iov a).iov_len = sizeof_msgbuf ∧
    (∀ i, 16 ≤ i → i < iov_region_len → (vecBytes a).getD i 1 = 0) := by
  have hlen : (iovecBytes (real_iov a)).length = 16 := by
    simp [iovecBytes, leBytes]
  refine ⟨?_, rfl, ?_, rfl, ?_⟩
  · rw [vecBytes, List.length_append, hlen, List.length_replicate]
    rfl
  · rw [vecBytes, ← hlen, List.take_left]
  · intro i h16 hlt
    rw [vecBytes, List.getD_append_right _ _ _ _ (by rw [hlen]; exact h16)]
    rw [hlen]
    have hi : i - 16 < (List.replicate (0x1000 - 16) (0 : Nat)).length := by
      rw [List.length_replicate]
      simp only [iov_region_len] at hlt
      omega
    rw [List.getD_eq_getElem _ _ hi, List.getElem_replicate]

/-- Witness for c10: at a concrete payload address, byte 100 of the
supplied page is zero padding and the page is exactly one region long. -/
theorem c10_witness :
    (vecBytes 4096).getD 100 1 = 0 ∧ (vecBytes 4096).length = iov_region_len :=
  ⟨(c10_populate_payload 4096).2.2.2.2 100 (by decide) (by decide),
   (c10_populate_payload 4096).1⟩

/-- C4 counterexample: in a channel state where a completion record for
submission id 0 is already recorded, the mutation step of line 69 still
overwrites the descriptor's opcode — the state changes, so the call is
neither a failure with AlreadyConsumed (no error path exists in the
source) nor a silent no-op; this refutes the claim that the mutation after
a recorded completion fails and performs no write. -/
theorem c4_counterexample :
    completionRecorded 0 st0 = true ∧
    mutate_submitted_op st0 ≠ st0 ∧
    (mutate_submitted_op st0).sqe0.opcode = IORING_OP_SENDMSG := by
  refine ⟨rfl, ?_, rfl⟩
  decide

/-- C4 amended: the mutation of the submitted descriptor is unconditional.
Even in a state whose completion list already records id 0, it overwrites
the opcode of slot 0 with IORING_OP_SENDMSG, changes nothing else, and
reports no AlreadyConsumed error — line 69 is a plain store with no
completion-sequence inspection. -/
theorem c4_unconditional_mutation (st : ChannelState)
    (hrec : completionRecorded 0 st = true) :
    mutate_submitted_op st =
      { st with sqe0 := { st.sqe0 with opcode := IORING_OP_SENDMSG } } :=
  rfl

/-- Witness for c4 at the concrete already-completed channel state. -/
theorem c4_witness :
    mutate_submitted_op st0 =
      { st0 with sqe0 := { st0.sqe0 with opcode := IORING_OP_SENDMSG } } :=
  c4_unconditional_mutation st0 rfl

/-- C6 counterexample: with ring_entries = 10 as the capacity N, ten
submit calls with no consumption bring the submission tail to N; the
eleventh call still advances the tail to N + 1 and performs an eleventh
store to index-array slot 0 (overwriting the slot of the still-unconsumed
first descriptor) instead of failing — the source's submit (lines 152-153)
has no capacity check, whereas the spec's submit contract reports
ChannelFull at exactly that point. -/
theorem c6_counterexample :
    (submits ring_entries).sq_tail = ring_entries ∧
    (submits (ring_entries + 1)).sq_tail = ring_entries + 1 ∧
    (submits (ring_entries + 1)).slot0_writes = ring_entries + 1 ∧
    spec_submit ring_entries (submits ring_entries) = SubmitOutcome.channelFull := by
  decide

/-- C6 amended: submit is unchecked — every call unconditionally stores
index 0 into slot 0 of the index array and advances the submission tail by
one, so after n submissions with no consumption the tail is n and the slot
has been written n times; in particular the (N+1)-th call succeeds like
every other, and no ChannelFull failure exists in the implementation. -/
theorem c6_submit_unchecked :
    (∀ ch : SqRingState, submit ch =
      { slot0 := 0, slot0_writes := ch.slot0_writes + 1, sq_tail := ch.sq_tail + 1 }) ∧
    (∀ n : Nat, (submits n).sq_tail = n ∧ (submits n).slot0_writes = n) := by
  refine ⟨fun ch => rfl, ?_⟩
  intro n
  induction n with
  | zero => exact ⟨rfl, rfl⟩
  | succ n ih => simp [submits, submit, ih.1, ih.2]

/-- C2 counterexample: the fault wait of the attempt — read(uffd, &msg,
sizeof(msg)) at line 65 — is a blocking wait of the harness whose argument
list carries no caller-supplied timeout at all, refuting the claim that
every blocking wait in the harness accepts one. -/
theorem c2_counterexample :
    uffd_read_wait ∈ blockingWaits ∧ uffd_read_wait.timeout = none :=
  ⟨List.mem_cons_self _ _, rfl⟩

/-- C2 amended: no blocking wait of the attempt carries a timeout — both
read(uffd) and io_uring_enter(GETEVENTS) are unbounded — and in any run
whose setup succeeded but whose fault is never observed the program blocks
forever (the consumer stays blocked on the unpopulated page, so
min_complete = 1 is never reached) instead of terminating in a
RaceNotTriggered outcome; no such outcome exists in the program. -/
theorem c2_no_timeouts :
    (∀ c ∈ blockingWaits, c.timeout = none) ∧
    (∀ e : Env, setupOk e = true → e.faultObserved = false →
      (run e).1 = Report.hangs ∧ exitCode e = none) := by
  constructor
  · intro c hc
    rcases hc with _ | ⟨_, hc⟩
    · rfl
    · rcases hc with _ | ⟨_, hc⟩
      · rfl
      · cases hc
  · intro e hs hf
    simp only [setupOk, Bool.and_eq_true, bne_iff_ne, beq_iff_eq, ne_eq] at hs
    obtain ⟨⟨⟨⟨⟨⟨⟨⟨⟨h1, h2⟩, h3⟩, h4⟩, h5⟩, h6⟩, h7⟩, h8⟩, h9⟩, h10⟩ := hs
    have hrun : (run e).1 = Report.hangs := by
      simp [run, h1, h2, h3, h4, h5, h6, h7, h8, h9, h10, hf]
    exact ⟨hrun, by simp [exitCode, hrun]⟩

/-- Witness for c2 at a concrete environment with no fault: the run hangs
and never produces an exit code. -/
theorem c2_witness :
    (run envNoFault).1 = Report.hangs ∧ exitCode envNoFault = none :=
  c2_no_timeouts.2 envNoFault (by decide) rfl

/-- C1: in every run that reaches a Success or Blocked outcome, the fault
observation (read(uffd) returning), the opcode overwrite and the trap
population (UFFDIO_COPY) each occur exactly once, their sequence positions
satisfy fault < mutate < populate, and the consumer's completion-tail
advance (its resumed processing) comes strictly after the population. -/
theorem c1_mutation_ordered (e : Env) (h : ranToCompletion e) :
    occCount Event.faultObserved (run e).2 = 1 ∧
    occCount Event.mutateKind (run e).2 = 1 ∧
    occCount Event.populateRegion (run e).2 = 1 ∧
    seqIdx Event.faultObserved (run e).2 < seqIdx Event.mutateKind (run e).2 ∧
    seqIdx Event.mutateKind (run e).2 < seqIdx Event.populateRegion (run e).2 ∧
    seqIdx Event.populateRegion (run e).2 <
      seqIdx (Event.cursorWrite Cursor.cqTail Writer.consumer 0 1) (run e).2 := by
  rw [run_of_completes e (completes_of_ranToCompletion e h)]
  refine ⟨?_, ?_, ?_, ?_, ?_, ?_⟩ <;> simp [fullTrace, occCount, seqIdx]

/-- Witness for c1 at a concrete successful environment. -/
theorem c1_witness :
    occCount Event.mutateKind (run env0).2 = 1 ∧
    seqIdx Event.faultObserved (run env0).2 < seqIdx Event.mutateKind (run env0).2 := by
  have h := c1_mutation_ordered env0 (Or.inl ⟨32, by decide⟩)
  exact ⟨h.2.1, h.2.2.2.1⟩

/-- C5: in every run that completes, the harness has insisted on exactly
one completion record (cq_tail = 1, enforced by the errx check at line
158): the consumer advanced the completion tail exactly once, main read a
completion record exactly once, and — given the transport contract that a
completion record carries the user_data of the descriptor it completes —
the record read carries the submitted descriptor's identity. -/
theorem c5_single_completion (e : Env) (h : completes e = true)
    (hid : e.cqe_user_data = (submitted_sqe e).user_data) :
    e.cq_tail = 1 ∧
    (run e).2.countP isConsumerWrite = 1 ∧
    (run e).2.countP isCqeRead = 1 ∧
    Event.cqeRead 0 ((submitted_sqe e).user_data) e.cqe_res ∈ (run e).2 := by
  have htail : e.cq_tail = 1 := by
    simp only [completes, Bool.and_eq_true, beq_iff_eq] at h
    exact h.2
  refine ⟨htail, ?_, ?_, ?_⟩ <;> rw [run_of_completes e h] <;>
    simp [fullTrace, isConsumerWrite, isCqeRead, hid]

/-- Witness for c5 at a concrete successful environment. -/
theorem c5_witness :
    env0.cq_tail = 1 ∧ (run env0).2.countP isCqeRead = 1 := by
  have h := c5_single_completion env0 (by decide) rfl
  exact ⟨h.1, h.2.2.1⟩

/-- Every event of the consumer's completion production obeys the cursor
discipline. -/
theorem cursorOk_consumerEvents (e : Env) :
    ∀ ev ∈ consumerEvents e, cursorOk ev = true := by
  intro ev hev
  simp only [consumerEvents, List.mem_map, List.mem_range] at hev
  obtain ⟨i, _, rfl⟩ := hev
  simp [cursorOk]

/-- All events of the consumer production pass the Bool-level check. -/
theorem allCursorOk_consumer (e : Env) : (consumerEvents e).all cursorOk = true := by
  rw [List.all_eq_true]
  exact cursorOk_consumerEvents e

/-- C7: in every run, every submission-tail write in the trace is
performed by the producer and advances the cursor by exactly one, every
completion-tail write is performed by the consumer and advances it by
exactly one (so neither cursor is ever decremented, and each is advanced
only by its sole writer), and every index-array slot store uses an index
equal to the cursor value reduced modulo the ring capacity. -/
theorem c7_cursor_discipline (e : Env) : ∀ ev ∈ (run e).2, cursorOk ev = true := by
  have hall : (run e).2.all cursorOk = true := by
    by_cases h1 : e.io_uring_setup_res = -1
    · simp [run, h1]
    by_cases h2 : e.mmap_sq_res = -1
    · simp [run, h1, h2]
    by_cases h3 : e.mmap_cq_res = -1
    · simp [run, h1, h2, h3]
    by_cases h4 : e.mmap_sqes_res = -1
    · simp [run, h1, h2, h3, h4]
    by_cases h5 : e.mmap_iov_res = -1
    · simp [run, h1, h2, h3, h4, h5]
    by_cases h6 : e.userfaultfd_res = -1
    · simp [run, h1, h2, h3, h4, h5, h6]
    by_cases h7 : e.uffdio_api_res = -1
    · simp [run, h1, h2, h3, h4, h5, h6, h7]
    by_cases h8 : e.uffdio_register_res = -1
    · simp [run, h1, h2, h3, h4, h5, h6, h7, h8]
    by_cases h9 : e.pthread_create_res = 0
    case neg => simp [run, h1, h2, h3, h4, h5, h6, h7, h8, h9]
    by_cases h10 : e.socket_res = -1
    · simp [run, h1, h2, h3, h4, h5, h6, h7, h8, h9, h10]
    by_cases h11 : e.faultObserved = true
    case neg =>
      simp [run, h1, h2, h3, h4, h5, h6, h7, h8, h9, h10, h11, submitEvents, cursorOk]
    by_cases h12 : e.read_res = -1
    · simp [run, h1, h2, h3, h4, h5, h6, h7, h8, h9, h10, h11, h12, submitEvents,
        cursorOk]
    by_cases h13 : e.read_res = sizeof_uffd_msg
    case neg =>
      simp [run, h1, h2, h3, h4, h5, h6, h7, h8, h9, h10, h11, h12, h13, submitEvents,
        cursorOk]
    by_cases h14 : e.uffdio_copy_res = -1
    · simp [run, sizeof_uffd_msg, h1, h2, h3, h4, h5, h6, h7, h8, h9, h10, h11, h12,
        h13, h14, submitEvents, cursorOk]
    by_cases h15 : e.io_uring_enter_res = -1
    · simp [run, sizeof_uffd_msg, h1, h2, h3, h4, h5, h6, h7, h8, h9, h10, h11, h12,
        h13, h14, h15, submitEvents, cursorOk]
    by_cases h16 : e.cq_tail = 1
    case neg =>
      simp [run, sizeof_uffd_msg, h1, h2, h3, h4, h5, h6, h7, h8, h9, h10, h11, h12,
        h13, h14, h15, h16, submitEvents, cursorOk, allCursorOk_consumer e]
    simp [run, sizeof_uffd_msg, h1, h2, h3, h4, h5, h6, h7, h8, h9, h10, h11, h12, h13,
      h14, h15, h16, submitEvents, cursorOk, allCursorOk_consumer e, consumerEvents]
  intro ev hev
  exact List.all_eq_true.mp hall ev hev

/-- Witness for c7: the producer's single submission-tail advance of a
concrete successful run obeys the discipline. -/
theorem c7_witness :
    cursorOk (Event.cursorWrite Cursor.sqTail Writer.producer 0 1) = true :=
  c7_cursor_discipline env0 (Event.cursorWrite Cursor.sqTail Writer.producer 0 1)
    (by decide)

/-- C8: the process exit code is 0 exactly when the attempt ran to
completion — reached the final result printf — regardless of whether the
race succeeded or was blocked, and it is 1 exactly when some
infrastructural step (allocation, registration, system call, thread
creation, or the completion-count check) failed through err(1)/errx(1). -/
theorem c8_exit_code (e : Env) :
    (exitCode e = some 0 ↔ ranToCompletion e) ∧
    (exitCode e = some 1 ↔ ∃ st, (run e).1 = Report.infraFailure st) := by
  unfold exitCode ranToCompletion
  rcases hr : (run e).1 with r | r | st | _ <;> simp [hr]

/-- Witness for c8: a run whose completion result is positive and a run
whose completion result is negative both exit with code 0. -/
theorem c8_witness :
    exitCode env0 = some 0 ∧ exitCode envBlocked = some 0 := by
  constructor
  · exact (c8_exit_code env0).1.mpr (Or.inl ⟨32, by decide⟩)
  · exact (c8_exit_code envBlocked).1.mpr (Or.inr ⟨-1, by decide⟩)

end UringSendmsg
